import Mathlib

/-!
Shallow embedding of the Rology signaling server (`server.js`, the
socket.io coordination core).  JavaScript `Map`s are modelled as
association lists with JS-`Map` semantics (`set` updates in place or
appends, `delete` removes, iteration in insertion order); each socket's
closure state (`currentRoom`) lives in a per-connection table; every
handler is a pure function from server state and arguments to the new
server state together with the list of messages emitted, in order.
-/

namespace Rology

/-- Association list keyed by strings, standing in for a JS `Map`. -/
abbrev AList (α : Type) : Type := List (String × α)

namespace AList

/-- Lookup `m.get k` — first binding of `k`, like `Map.prototype.get`. -/
def get {α : Type} : AList α → String → Option α
  | [], _ => none
  | p :: t, k => if p.1 == k then some p.2 else get t k

/-- Update `m.set k v` — update in place when the key is present, else append,
like `Map.prototype.set` (insertion order preserved). -/
def set {α : Type} : AList α → String → α → AList α
  | [], k, v => [(k, v)]
  | p :: t, k, v => if p.1 == k then (k, v) :: t else p :: set t k v

/-- Removal `m.delete k`, like `Map.prototype.delete`. -/
def del {α : Type} : AList α → String → AList α
  | [], _ => []
  | p :: t, k => if p.1 == k then del t k else p :: del t k

/-- Values list, `Array.from(m.values())`. -/
def values {α : Type} (m : AList α) : List α :=
  m.map (fun p => p.2)

/-- Key test `m.has k`. -/
def has {α : Type} (m : AList α) (k : String) : Bool :=
  m.any (fun p => p.1 == k)

end AList

/-- An entry of `connectedUsers` (`register` handler, server.js). -/
structure User where
  id : String
  name : String
  role : String
  isAvailable : Bool
  socketId : String
  deriving DecidableEq, Repr

/-- An entry of `sessionRequests` (`create-session-request` handler).
Optional fields model the JS properties that may be `undefined`. -/
structure SessionRequest where
  id : String
  technicianId : String
  technicianName : String
  status : String
  roomId : String
  createdAt : Nat
  assignedRadiologistId : Option String := none
  assignedRadiologistName : Option String := none
  rejectionComment : Option String := none
  deriving DecidableEq, Repr

/-- An entry of `roomAssignments` (`assign-radiologist` handler). -/
structure RoomAssignment where
  id : String
  roomId : String
  technicianId : String
  technicianName : String
  radiologistId : String
  status : String
  rejectionComment : Option String := none
  deriving DecidableEq, Repr

/-- Per-room member record stored in `roomUsers` (`join` handler). -/
structure RoomMember where
  role : String
  joinedAt : Nat
  deriving DecidableEq, Repr

/-- Per-socket closure state of the connection handler: the mutable
`currentRoom` variable, plus the set of socket.io rooms the socket has
joined via `socket.join` (socket.io removes them all on disconnect). -/
structure Conn where
  currentRoom : Option String := none
  joinedRooms : List String := []
  deriving DecidableEq, Repr

/-- The whole mutable state of the server process. `connections` is
keyed by socket id and holds each live socket's closure state; the
`currentUser` closure variable is the `connectedUsers` entry for the
socket id (they alias the same object in the source). -/
structure ServerState where
  connectedUsers : AList User := []
  sessionRequests : AList SessionRequest := []
  roomAssignments : AList RoomAssignment := []
  roomUsers : AList (AList RoomMember) := []
  connections : AList Conn := []
  deriving DecidableEq, Repr

/-- Payload of a server-emitted `signal` event (the `type` tag and the
fields of the object the source passes as `payload`). `clientEvent`
stands for a client `signal` event forwarded verbatim by the relay. -/
inductive SigPayload where
  | sessionRequest (r : SessionRequest)
  | sessionAssigned (r : SessionRequest)
  | roomInvite (a : RoomAssignment)
  | roomAccepted (assignmentId : String) (radiologistId : Option String)
      (roomId : String)
  | roomRejected (assignmentId : String) (radiologistId : Option String)
      (radiologistName : Option String) (comment : Option String)
  | sessionEnded (requestId : String) (reason : String)
  | joinNotice (role : String) (roomId : String) (userId : Option String)
      (userName : Option String)
  | leaveNotice (role : String)
  | userListUpdate (technicians : List User) (radiologists : List User)
  | clientEvent (body : String)
  deriving DecidableEq, Repr

/-- An outbound socket.io event. -/
inductive OutEvent where
  | signal (p : SigPayload)
  | sessionRequestsUpdate (l : List SessionRequest)
  | roomInfo (users : List RoomMember)
  | joinRoom (roomId : String)
  deriving DecidableEq, Repr

/-- One emission: the socket id it is addressed to and the event. -/
structure Emit where
  target : String
  event : OutEvent
  deriving DecidableEq, Repr

-- ============================================
-- HELPER FUNCTIONS (server.js lines 43-73)
-- ============================================

/-- Helper `getUsersByRole` — `Array.from(connectedUsers.values()).filter(...)`. -/
def getUsersByRole (s : ServerState) (role : String) : List User :=
  (s.connectedUsers.values).filter (fun u => u.role == role)

/-- Lookup `Array.from(connectedUsers.values()).find(u => u.id === id)`. -/
def findUserById (s : ServerState) (id : String) : Option User :=
  (s.connectedUsers.values).find? (fun u => u.id == id)

/-- Lookup `Array.from(sessionRequests.values()).find(r => r.roomId === roomId)`. -/
def findRequestByRoom (s : ServerState) (roomId : String) : Option SessionRequest :=
  (s.sessionRequests.values).find? (fun r => r.roomId == roomId)

/-- Helper `broadcastUserListToAdmins` — pushes `USER_LIST_UPDATE` to every
MEDICAL_ADMIN. -/
def broadcastUserListToAdmins (s : ServerState) : List Emit :=
  let technicians := getUsersByRole s "TECH"
  let radiologists := getUsersByRole s "RADIOLOGIST"
  (getUsersByRole s "MEDICAL_ADMIN").map (fun admin =>
    ⟨admin.socketId, .signal (.userListUpdate technicians radiologists)⟩)

/-- Helper `broadcastSessionRequestsToAdmins` — pushes `session-requests-update`
to every MEDICAL_ADMIN. -/
def broadcastSessionRequestsToAdmins (s : ServerState) : List Emit :=
  let requests := s.sessionRequests.values
  (getUsersByRole s "MEDICAL_ADMIN").map (fun admin =>
    ⟨admin.socketId, .sessionRequestsUpdate requests⟩)

/-- Fan-out `socket.to(room).emit(ev)` — every connected socket that has joined
`room`, except the sender. -/
def socketTo (s : ServerState) (sender : String) (room : String)
    (ev : OutEvent) : List Emit :=
  (s.connections.filter (fun p =>
      p.1 != sender && p.2.joinedRooms.contains room)).map
    (fun p => ⟨p.1, ev⟩)

/-- Fan-out `io.to(room).emit(ev)` — every connected socket that has joined
`room` (socket.io rooms; a socket id is also a room holding just that
socket, which is how `io.to(user.socketId)` reaches one user). -/
def ioTo (s : ServerState) (room : String) (ev : OutEvent) : List Emit :=
  (s.connections.filter (fun p =>
      p.1 == room || p.2.joinedRooms.contains room)).map
    (fun p => ⟨p.1, ev⟩)

/-- Timestamp suffix `Date.now().toString().slice(-4)`. -/
def lastFour (n : Nat) : String :=
  let str := toString n
  str.drop (str.length - 4)

-- ============================================
-- SOCKET HANDLERS (server.js lines 90-589)
-- ============================================

/-- Handler `io.on('connection', ...)` — a fresh socket: closure variables
`currentRoom = null`, `currentUser = null`. -/
def handleConnect (s : ServerState) (sock : String) : ServerState :=
  { s with connections := s.connections.set sock {} }

/-- Handler `socket.on('register', ...)` (lines 98-117). -/
def handleRegister (s : ServerState) (sock userId userName role : String) :
    ServerState × List Emit :=
  let currentUser : User :=
    { id := userId, name := userName, role := role,
      isAvailable := role == "RADIOLOGIST", socketId := sock }
  let s1 := { s with connectedUsers := s.connectedUsers.set sock currentUser }
  let emits :=
    broadcastUserListToAdmins s1 ++
      (if role == "MEDICAL_ADMIN" then
        [⟨sock, .sessionRequestsUpdate s1.sessionRequests.values⟩]
      else [])
  (s1, emits)

/-- Handler `socket.on('set-availability', ...)` (lines 122-132). -/
def handleSetAvailability (s : ServerState) (sock : String)
    (available : Bool) : ServerState × List Emit :=
  match s.connectedUsers.get sock with
  | some currentUser =>
    if currentUser.role == "RADIOLOGIST" then
      let s1 := { s with connectedUsers :=
        s.connectedUsers.set sock { currentUser with isAvailable := available } }
      (s1, broadcastUserListToAdmins s1)
    else (s, [])
  | none => (s, [])

/-- Handler `socket.on('create-session-request', ...)` (lines 137-162).
`freshId` stands for the `generateId()` result and `now` for
`Date.now()`. -/
def handleCreateSessionRequest (s : ServerState) (sock : String)
    (technicianId technicianName freshId : String) (now : Nat) :
    ServerState × List Emit :=
  let roomId := "US-" ++ lastFour now
  let request : SessionRequest :=
    { id := freshId, technicianId := technicianId,
      technicianName := technicianName, status := "PENDING",
      roomId := roomId, createdAt := now }
  let s1 := { s with sessionRequests := s.sessionRequests.set freshId request }
  (s1, ⟨sock, .signal (.sessionRequest request)⟩ ::
        broadcastSessionRequestsToAdmins s1)

/-- Handler `socket.on('assign-radiologist', ...)` (lines 167-218). `freshId`
stands for the generated assignment id. -/
def handleAssignRadiologist (s : ServerState) (sock : String)
    (requestId radiologistId radiologistName freshId : String) :
    ServerState × List Emit :=
  match s.sessionRequests.get requestId with
  | none => (s, [])
  | some request =>
    match findUserById s radiologistId with
    | none => (s, [])
    | some radiologist =>
      let request1 := { request with
        status := "ASSIGNED"
        assignedRadiologistId := some radiologistId
        assignedRadiologistName := some radiologistName }
      let s1 := { s with sessionRequests :=
        s.sessionRequests.set requestId request1 }
      let assignment : RoomAssignment :=
        { id := freshId, roomId := request.roomId,
          technicianId := request.technicianId,
          technicianName := request.technicianName,
          radiologistId := radiologistId, status := "PENDING" }
      let s2 := { s1 with roomAssignments :=
        s1.roomAssignments.set freshId assignment }
      let techEmits :=
        match findUserById s2 request.technicianId with
        | some technician =>
          ioTo s2 technician.socketId (.signal (.sessionAssigned request1))
        | none => []
      (s2, techEmits ++
           ioTo s2 radiologist.socketId (.signal (.roomInvite assignment)) ++
           broadcastSessionRequestsToAdmins s2)

/-- Handler `socket.on('respond-to-assignment', ...)` (lines 223-292). -/
def handleRespondToAssignment (s : ServerState) (sock assignmentId : String)
    (accept : Bool) (comment : Option String) : ServerState × List Emit :=
  match s.roomAssignments.get assignmentId with
  | none => (s, [])
  | some assignment =>
    let currentUser := s.connectedUsers.get sock
    if accept then
      let assignment1 := { assignment with status := "ACCEPTED" }
      let s1 := { s with roomAssignments :=
        s.roomAssignments.set assignmentId assignment1 }
      let s2 :=
        match findRequestByRoom s1 assignment.roomId with
        | some request =>
          { s1 with sessionRequests :=
            s1.sessionRequests.set request.id { request with status := "ACTIVE" } }
        | none => s1
      let techEmits :=
        match findUserById s2 assignment.technicianId with
        | some technician =>
          ioTo s2 technician.socketId (.signal (.roomAccepted assignmentId
            (currentUser.map (fun u => u.id)) assignment.roomId))
        | none => []
      (s2, techEmits ++ [⟨sock, .joinRoom assignment.roomId⟩] ++
           broadcastSessionRequestsToAdmins s2)
    else
      let assignment1 := { assignment with
        status := "REJECTED"
        rejectionComment := comment }
      let s1 := { s with roomAssignments :=
        s.roomAssignments.set assignmentId assignment1 }
      let s2 :=
        match findRequestByRoom s1 assignment.roomId with
        | some request =>
          { s1 with sessionRequests :=
            s1.sessionRequests.set request.id { request with
              status := "PENDING"
              assignedRadiologistId := none
              assignedRadiologistName := none
              rejectionComment := comment } }
        | none => s1
      let adminEmits := (getUsersByRole s2 "MEDICAL_ADMIN").map (fun admin =>
        (⟨admin.socketId, .signal (.roomRejected assignmentId
          (currentUser.map (fun u => u.id)) (currentUser.map (fun u => u.name))
          comment)⟩ : Emit))
      (s2, adminEmits ++ broadcastSessionRequestsToAdmins s2)

/-- Handler `socket.on('end-session', ...)` (lines 354-408). -/
def handleEndSession (s : ServerState) (sock requestId : String) :
    ServerState × List Emit :=
  match s.sessionRequests.get requestId with
  | none => (s, [])
  | some request =>
    let technician := findUserById s request.technicianId
    let radiologist := request.assignedRadiologistId.bind (findUserById s)
    let techEmits :=
      match technician with
      | some t => ioTo s t.socketId
          (.signal (.sessionEnded requestId "Session ended by admin"))
      | none => []
    let radEmits :=
      match radiologist with
      | some r => ioTo s r.socketId
          (.signal (.sessionEnded requestId "Session ended by admin"))
      | none => []
    let s1 :=
      match radiologist with
      | some r => { s with connectedUsers :=
          s.connectedUsers.set r.socketId { r with isAvailable := true } }
      | none => s
    let s2 := { s1 with sessionRequests := s1.sessionRequests.del requestId }
    let s3 := { s2 with roomAssignments :=
      s2.roomAssignments.filter (fun p => p.2.roomId != request.roomId) }
    let s4 := { s3 with roomUsers := s3.roomUsers.del ("room-" ++ request.roomId) }
    (s4, techEmits ++ radEmits ++
         broadcastSessionRequestsToAdmins s4 ++ broadcastUserListToAdmins s4)

/-- Handler `socket.on('join', ...)` (lines 430-452). `now` stands for
`Date.now()` recorded as `joinedAt`. -/
def handleJoin (s : ServerState) (sock roomId role : String) (now : Nat) :
    ServerState × List Emit :=
  let currentRoom := "room-" ++ roomId
  let conn := (s.connections.get sock).getD {}
  let conn1 := { conn with
    currentRoom := some currentRoom
    joinedRooms := conn.joinedRooms ++ [currentRoom] }
  let s1 := { s with connections := s.connections.set sock conn1 }
  let members := (s1.roomUsers.get currentRoom).getD []
  let members1 := members.set sock { role := role, joinedAt := now }
  let s2 := { s1 with roomUsers := s1.roomUsers.set currentRoom members1 }
  let currentUser := s2.connectedUsers.get sock
  (s2, socketTo s2 sock currentRoom (.signal (.joinNotice role roomId
         (currentUser.map (fun u => u.id)) (currentUser.map (fun u => u.name)))) ++
       [⟨sock, .roomInfo members1.values⟩])

/-- Handler `socket.on('signal', ...)` (lines 457-462) — the relay: forwards the
event verbatim to the other members of the sender's `currentRoom`, or
does nothing when the sender has not joined a room. -/
def handleSignal (s : ServerState) (sock : String) (body : String) :
    ServerState × List Emit :=
  match s.connections.get sock with
  | some conn =>
    match conn.currentRoom with
    | some currentRoom =>
      (s, socketTo s sock currentRoom (.signal (.clientEvent body)))
    | none => (s, [])
  | none => (s, [])

/-- The loop guard of the technician branch (line 530):
`request.technicianId === user.id && (request.status === 'ACTIVE' ||
request.status === 'ASSIGNED')`. -/
def disconnectMatch (techId : String) (entry : String × SessionRequest) :
    Bool :=
  entry.2.technicianId == techId &&
    (entry.2.status == "ACTIVE" || entry.2.status == "ASSIGNED")

/-- Body of the technician branch of the disconnect handler (lines
529-565), for one `(requestId, request)` entry of the loop. -/
def disconnectEndOne (techId : String) (st : ServerState × List Emit)
    (entry : String × SessionRequest) : ServerState × List Emit :=
  let s := st.1
  let requestId := entry.1
  let request := entry.2
  if disconnectMatch techId entry then
    let radStep : ServerState × List Emit :=
      match request.assignedRadiologistId with
      | some radId =>
        match findUserById s radId with
        | some radiologist =>
          let freed := { radiologist with isAvailable := true }
          ({ s with connectedUsers :=
              s.connectedUsers.set radiologist.socketId freed },
           ioTo s radiologist.socketId
             (.signal (.sessionEnded requestId "Technician left the session")))
        | none => (s, [])
      | none => (s, [])
    let s1 := radStep.1
    let radEmits := radStep.2
    let adminEmits := (getUsersByRole s1 "MEDICAL_ADMIN").map (fun admin =>
      (⟨admin.socketId, .signal (.sessionEnded requestId
        "Technician disconnected")⟩ : Emit))
    let s2 := { s1 with sessionRequests := s1.sessionRequests.del requestId }
    let s3 := { s2 with roomAssignments :=
      s2.roomAssignments.filter (fun p => p.2.roomId != request.roomId) }
    (s3, st.2 ++ radEmits ++ adminEmits)
  else
    st

/-- The `if (user && user.role === 'TECH')` block of the disconnect
handler (lines 527-566): the `for ... of sessionRequests` loop is a fold
over the entries present when the loop starts (the loop only ever
deletes entries, never adds). -/
def disconnectEndStep (user : Option User) (s1 : ServerState) :
    ServerState × List Emit :=
  match user with
  | some u =>
    if u.role == "TECH" then
      s1.sessionRequests.foldl (disconnectEndOne u.id) (s1, [])
    else (s1, [])
  | none => (s1, [])

/-- The room-membership cleanup block of the disconnect handler (lines
568-584). -/
def disconnectRoomStep (user : Option User) (conn : Option Conn)
    (sock : String) (s2 : ServerState) : ServerState × List Emit :=
  match conn.bind (fun c => c.currentRoom) with
  | some currentRoom =>
    if s2.roomUsers.has currentRoom then
      let members := ((s2.roomUsers.get currentRoom).getD []).del sock
      let leaveEmits :=
        match user with
        | some u => ioTo s2 currentRoom (.signal (.leaveNotice u.role))
        | none => []
      if members.length == 0 then
        ({ s2 with roomUsers := s2.roomUsers.del currentRoom }, leaveEmits)
      else
        ({ s2 with roomUsers := s2.roomUsers.set currentRoom members },
         leaveEmits)
    else (s2, [])
  | none => (s2, [])

/-- Handler `socket.on('disconnect', ...)` (lines 519-589).  The socket has
already left its socket.io rooms when the handler runs, so it is removed
from `connections` first. -/
def disconnectBase (s : ServerState) (sock : String) : ServerState :=
  { s with
    connectedUsers := s.connectedUsers.del sock
    connections := s.connections.del sock }

def handleDisconnect (s : ServerState) (sock : String) :
    ServerState × List Emit :=
  let user := s.connectedUsers.get sock
  let conn := s.connections.get sock
  let s1 := disconnectBase s sock
  let endStep := disconnectEndStep user s1
  let roomStep := disconnectRoomStep user conn sock endStep.1
  (roomStep.1, endStep.2 ++ roomStep.2 ++
       broadcastUserListToAdmins roomStep.1 ++
       broadcastSessionRequestsToAdmins roomStep.1)

-- ============================================
-- EVENT LOOP
-- ============================================

/-- One inbound transport event, tagged with the socket it arrives on
(the socket.io event loop handles one at a time). -/
inductive Event where
  | connect (sock : String)
  | register (sock userId userName role : String)
  | setAvailability (sock : String) (available : Bool)
  | createSessionRequest (sock technicianId technicianName freshId : String)
      (now : Nat)
  | assignRadiologist (sock requestId radiologistId radiologistName
      freshId : String)
  | respondToAssignment (sock assignmentId : String) (accept : Bool)
      (comment : Option String)
  | endSession (sock requestId : String)
  | joinRoom (sock roomId role : String) (now : Nat)
  | signalMsg (sock body : String)
  | disconnect (sock : String)
  deriving DecidableEq, Repr

/-- State reached by handling one event (emissions dropped). -/
def stepState (s : ServerState) : Event → ServerState
  | .connect sock => handleConnect s sock
  | .register sock userId userName role =>
      (handleRegister s sock userId userName role).1
  | .setAvailability sock available =>
      (handleSetAvailability s sock available).1
  | .createSessionRequest sock technicianId technicianName freshId now =>
      (handleCreateSessionRequest s sock technicianId technicianName
        freshId now).1
  | .assignRadiologist sock requestId radId radName freshId =>
      (handleAssignRadiologist s sock requestId radId radName freshId).1
  | .respondToAssignment sock assignmentId accept comment =>
      (handleRespondToAssignment s sock assignmentId accept comment).1
  | .endSession sock requestId => (handleEndSession s sock requestId).1
  | .joinRoom sock roomId role now => (handleJoin s sock roomId role now).1
  | .signalMsg sock body => (handleSignal s sock body).1
  | .disconnect sock => (handleDisconnect s sock).1

/-- Run a sequence of inbound events in order. -/
def runEvents (s : ServerState) (evs : List Event) : ServerState :=
  evs.foldl stepState s

/-- Whether an event is a `join` issued by socket `sock`. -/
def isJoinBy (sock : String) : Event → Bool
  | .joinRoom sock2 _ _ _ => sock2 == sock
  | _ => false

-- ============================================
-- EXAMPLE STATES (reachable by running handlers)
-- ============================================

/-- Three sockets connected, then a technician, a radiologist and a
medical admin registered. -/
def exRegistered : ServerState :=
  (handleRegister
    (handleRegister
      (handleRegister
        (handleConnect (handleConnect (handleConnect {} "sT") "sR") "sA")
        "sT" "t1" "Tech" "TECH").1
      "sR" "r1" "Rad" "RADIOLOGIST").1
    "sA" "a1" "Admin" "MEDICAL_ADMIN").1

/-- Next the technician creates a session request (id `req1`,
timestamp 1000, hence roomId `US-1000`). -/
def exPending : ServerState :=
  (handleCreateSessionRequest exRegistered "sT" "t1" "Tech" "req1" 1000).1

/-- Next the admin assigns the radiologist (assignment `as1`). -/
def exAssigned : ServerState :=
  (handleAssignRadiologist exPending "sA" "req1" "r1" "Rad" "as1").1

/-- Next the radiologist accepts the assignment. -/
def exAccepted : ServerState :=
  (handleRespondToAssignment exAssigned "sR" "as1" true none).1

/-- Variant: the radiologist toggles availability off before the
request is created, assigned and rejected with comment `busy`. -/
def exUnavailable : ServerState :=
  (handleSetAvailability exRegistered "sR" false).1

def exUnavailPending : ServerState :=
  (handleCreateSessionRequest exUnavailable "sT" "t1" "Tech" "req1" 1000).1

def exUnavailAssigned : ServerState :=
  (handleAssignRadiologist exUnavailPending "sA" "req1" "r1" "Rad" "as1").1

def exRejected : ServerState :=
  (handleRespondToAssignment exUnavailAssigned "sR" "as1" false
    (some "busy")).1

/-- After the accepted session both parties join room `US-1000`. -/
def exJoined : ServerState :=
  (handleJoin (handleJoin exAccepted "sT" "US-1000" "TECH" 2000).1
    "sR" "US-1000" "RADIOLOGIST" 3000).1

/-- Same technician creates a second request while `req1` is live. -/
def exTwoCreates : ServerState :=
  (handleCreateSessionRequest exPending "sT" "t1" "Tech" "req2" 2000).1

/-- A second create 10 seconds after the first: the timestamps 1000 and
11000 share their last four digits. -/
def exRoomClash : ServerState :=
  (handleCreateSessionRequest exPending "sT" "t1" "Tech" "req2" 11000).1

/-- The accepted assignment record held in `exAccepted`. -/
def exAcceptedAs1 : RoomAssignment :=
  { id := "as1"
    roomId := "US-1000"
    technicianId := "t1"
    technicianName := "Tech"
    radiologistId := "r1"
    status := "ACCEPTED" }

/-- The radiologist responds a second time (reject) to the already
accepted assignment `as1`. -/
def exDoubleRespond : ServerState :=
  (handleRespondToAssignment exAccepted "sR" "as1" false (some "oops")).1

/-- The PENDING assignment record held in `exUnavailAssigned`. -/
def exPendingAs1 : RoomAssignment :=
  { id := "as1"
    roomId := "US-1000"
    technicianId := "t1"
    technicianName := "Tech"
    radiologistId := "r1"
    status := "PENDING" }

/-- The ASSIGNED request record held in `exUnavailAssigned`. -/
def exAssignedReq1 : SessionRequest :=
  { id := "req1"
    technicianId := "t1"
    technicianName := "Tech"
    status := "ASSIGNED"
    roomId := "US-1000"
    createdAt := 1000
    assignedRadiologistId := some "r1"
    assignedRadiologistName := some "Rad" }

/-- The unavailable radiologist record held in `exUnavailAssigned`. -/
def exUnavailRad : User :=
  { id := "r1"
    name := "Rad"
    role := "RADIOLOGIST"
    isAvailable := false
    socketId := "sR" }

/-- The medical-admin record of the example runs. -/
def exAdminUser : User :=
  { id := "a1"
    name := "Admin"
    role := "MEDICAL_ADMIN"
    isAvailable := false
    socketId := "sA" }

/-- The socket has no current room (either it has no live connection
entry or its closure variable `currentRoom` is still `null`). -/
def NoRoom (sock : String) (s : ServerState) : Prop :=
  ∀ c : Conn, s.connections.get sock = some c → c.currentRoom = none

/-- The state reached inside the technician branch after the assigned
radiologist `rad` has been marked available again. -/
def radFreedState (s : ServerState) (sock : String) (rad : User) :
    ServerState :=
  let base := disconnectBase s sock
  let freed : User := { rad with isAvailable := true }
  { base with connectedUsers := base.connectedUsers.set rad.socketId freed }

/-- The technician record of the example runs. -/
def exTechUser : User :=
  { id := "t1"
    name := "Tech"
    role := "TECH"
    isAvailable := false
    socketId := "sT" }

/-- The ACTIVE request record held in `exAccepted`. -/
def exActiveReq1 : SessionRequest :=
  { id := "req1"
    technicianId := "t1"
    technicianName := "Tech"
    status := "ACTIVE"
    roomId := "US-1000"
    createdAt := 1000
    assignedRadiologistId := some "r1"
    assignedRadiologistName := some "Rad" }

/-- The available radiologist record held in `exAccepted`. -/
def exAvailRad : User :=
  { id := "r1"
    name := "Rad"
    role := "RADIOLOGIST"
    isAvailable := true
    socketId := "sR" }

-- ============================================
-- GENERAL LEMMAS
-- ============================================

namespace AList

theorem get_del_self {α : Type} (m : AList α) (k : String) :
    (m.del k).get k = none := by
  induction m with
  | nil => rfl
  | cons p t ih =>
    by_cases h : p.1 = k
    · simpa [del, h] using ih
    · simpa [del, get, h] using ih

theorem get_set_self {α : Type} (m : AList α) (k : String) (v : α) :
    (m.set k v).get k = some v := by
  induction m with
  | nil => simp [set, get]
  | cons p t ih =>
    by_cases h : p.1 = k
    · simp [set, h, get]
    · simpa [set, get, h] using ih

theorem get_set_ne {α : Type} (m : AList α) (k k2 : String) (v : α)
    (h : k2 ≠ k) : (m.set k v).get k2 = m.get k2 := by
  induction m with
  | nil => simp [set, get, Ne.symm h]
  | cons p t ih =>
    by_cases hp : p.1 = k
    · simp [set, hp, get, Ne.symm h]
    · by_cases hq : p.1 = k2
      · simp [set, get, hp, hq, h]
      · simpa [set, get, hp, hq] using ih

theorem get_del_ne {α : Type} (m : AList α) (k k2 : String)
    (h : k2 ≠ k) : (m.del k).get k2 = m.get k2 := by
  induction m with
  | nil => rfl
  | cons p t ih =>
    by_cases hp : p.1 = k
    · have h2 : k ≠ k2 := Ne.symm h
      simpa [del, hp, get, h2] using ih
    · by_cases hq : p.1 = k2
      · simp [del, get, hp, hq, h]
      · simpa [del, get, hp, hq] using ih

end AList


theorem AList.mem_of_get {α : Type} {m : AList α} {k : String} {v : α}
    (h : m.get k = some v) : (k, v) ∈ m := by
  induction m with
  | nil => simp [AList.get] at h
  | cons p t ih =>
    by_cases hp : p.1 = k
    · simp [AList.get, hp] at h
      have hpk : p = (k, v) := by
        cases p
        simp_all
      rw [hpk]
      exact List.mem_cons_self _ _
    · simp [AList.get, hp] at h
      exact List.mem_cons_of_mem _ (ih h)

/-- Delivery via `io.to(socketId)` reaches a socket that is connected. -/
theorem mem_ioTo {s : ServerState} {k : String} {c : Conn}
    (h : s.connections.get k = some c) (ev : OutEvent) :
    Emit.mk k ev ∈ ioTo s k ev := by
  have hm : (k, c) ∈ s.connections := AList.mem_of_get h
  unfold ioTo
  refine List.mem_map.mpr ⟨(k, c), ?_, rfl⟩
  apply List.mem_filter_of_mem hm
  simp

-- ============================================
-- CONNECTION-TABLE PRESERVATION LEMMAS
-- ============================================

theorem setAvailability_connections (s : ServerState) (sock : String)
    (av : Bool) :
    (handleSetAvailability s sock av).1.connections = s.connections := by
  unfold handleSetAvailability
  split
  · split <;> rfl
  · rfl

theorem assignRadiologist_connections (s : ServerState)
    (sock rid radId radName fid : String) :
    (handleAssignRadiologist s sock rid radId radName fid).1.connections =
      s.connections := by
  unfold handleAssignRadiologist
  split
  · rfl
  · split <;> rfl

theorem respondToAssignment_connections (s : ServerState)
    (sock aid : String) (accept : Bool) (comment : Option String) :
    (handleRespondToAssignment s sock aid accept comment).1.connections =
      s.connections := by
  unfold handleRespondToAssignment
  split
  · rfl
  · split <;> (dsimp only; split <;> rfl)

theorem endSession_connections (s : ServerState) (sock rid : String) :
    (handleEndSession s sock rid).1.connections = s.connections := by
  unfold handleEndSession
  split
  · rfl
  · dsimp only
    split <;> rfl

theorem signal_state (s : ServerState) (sock body : String) :
    (handleSignal s sock body).1 = s := by
  unfold handleSignal
  split
  · split <;> rfl
  · rfl

theorem disconnectEndOne_connections (tid : String)
    (st : ServerState × List Emit) (e : String × SessionRequest) :
    (disconnectEndOne tid st e).1.connections = st.1.connections := by
  unfold disconnectEndOne
  dsimp only
  split
  · split
    · split <;> rfl
    · rfl
  · rfl

theorem foldl_disconnectEndOne_connections (tid : String)
    (l : AList SessionRequest) (st : ServerState × List Emit) :
    (l.foldl (disconnectEndOne tid) st).1.connections = st.1.connections := by
  induction l generalizing st with
  | nil => rfl
  | cons e t ih =>
    rw [List.foldl_cons, ih]
    exact disconnectEndOne_connections tid st e

theorem disconnectEndStep_connections (user : Option User)
    (s1 : ServerState) :
    (disconnectEndStep user s1).1.connections = s1.connections := by
  unfold disconnectEndStep
  split
  · split
    · exact foldl_disconnectEndOne_connections _ _ _
    · rfl
  · rfl

theorem disconnectEndStep_nonTech (u : User) (s1 : ServerState)
    (h : (u.role == "TECH") = false) :
    disconnectEndStep (some u) s1 = (s1, []) := by
  simp [disconnectEndStep, h]

theorem disconnectRoomStep_fields (user : Option User) (conn : Option Conn)
    (sock : String) (s2 : ServerState) :
    (disconnectRoomStep user conn sock s2).1.connectedUsers =
      s2.connectedUsers ∧
    (disconnectRoomStep user conn sock s2).1.sessionRequests =
      s2.sessionRequests ∧
    (disconnectRoomStep user conn sock s2).1.roomAssignments =
      s2.roomAssignments ∧
    (disconnectRoomStep user conn sock s2).1.connections =
      s2.connections := by
  unfold disconnectRoomStep
  split
  · dsimp only
    split
    · split <;> exact ⟨rfl, rfl, rfl, rfl⟩
    · exact ⟨rfl, rfl, rfl, rfl⟩
  · exact ⟨rfl, rfl, rfl, rfl⟩

theorem disconnect_connections (s : ServerState) (sock : String) :
    (handleDisconnect s sock).1.connections = s.connections.del sock := by
  unfold handleDisconnect
  dsimp only
  rw [(disconnectRoomStep_fields _ _ _ _).2.2.2, disconnectEndStep_connections]
  rfl

-- ============================================
-- CLAIMS
-- ============================================

/-- Claim C3, counterexample: the technician of live request `req1`
issues a second `create-session-request`; it does not fail — `req2` is
inserted, and two live (PENDING) SessionRequests now share
`technicianId = "t1"`. -/
theorem c3_counterexample :
    (exPending.sessionRequests.get "req1").map
        (fun r => (r.technicianId, r.status)) = some ("t1", "PENDING") ∧
    (exTwoCreates.sessionRequests.get "req1").map
        (fun r => (r.technicianId, r.status)) = some ("t1", "PENDING") ∧
    (exTwoCreates.sessionRequests.get "req2").map
        (fun r => (r.technicianId, r.status)) = some ("t1", "PENDING") ∧
    ("req1" : String) ≠ "req2" := by
  refine ⟨rfl, rfl, rfl, ?_⟩
  decide

/-- Claim C3 (amended): `create-session-request` performs no duplicate
check at all — it unconditionally inserts a fresh PENDING request with
roomId `US-` + the last four digits of the timestamp, leaving every
other entry untouched, even when the requester already has a live
request; hence two live SessionRequests may share a `technicianId`. -/
theorem c3_amended (s : ServerState)
    (sock technicianId technicianName freshId : String) (now : Nat)
    (k : String) (hk : k ≠ freshId) :
    (handleCreateSessionRequest s sock technicianId technicianName freshId
        now).1.sessionRequests.get freshId =
      some { id := freshId, technicianId := technicianId,
             technicianName := technicianName, status := "PENDING",
             roomId := "US-" ++ lastFour now, createdAt := now } ∧
    (handleCreateSessionRequest s sock technicianId technicianName freshId
        now).1.sessionRequests.get k = s.sessionRequests.get k := by
  constructor
  · exact AList.get_set_self _ _ _
  · exact AList.get_set_ne _ _ _ _ hk

/-- Claim C3 witness: instantiating the amended claim on the example
run. -/
theorem c3_amended_witness :
    (handleCreateSessionRequest exRegistered "sT" "t1" "Tech" "req1"
        1000).1.sessionRequests.get "req1" =
      some { id := "req1", technicianId := "t1", technicianName := "Tech",
             status := "PENDING", roomId := "US-" ++ lastFour 1000,
             createdAt := 1000 } ∧
    (handleCreateSessionRequest exRegistered "sT" "t1" "Tech" "req1"
        1000).1.sessionRequests.get "zz" = exRegistered.sessionRequests.get "zz" :=
  c3_amended exRegistered "sT" "t1" "Tech" "req1" 1000 "zz" (by decide)

/-- Claim C4, counterexample: requests created at timestamps 1000 and
11000 both get roomId `US-1000`; two distinct live SessionRequests share
a roomId, so roomIds are neither unique nor never-reused. -/
theorem c4_counterexample :
    (exRoomClash.sessionRequests.get "req1").map
        (fun r => (r.roomId, r.status)) = some ("US-1000", "PENDING") ∧
    (exRoomClash.sessionRequests.get "req2").map
        (fun r => (r.roomId, r.status)) = some ("US-1000", "PENDING") ∧
    ("req1" : String) ≠ "req2" := by
  refine ⟨rfl, rfl, ?_⟩
  decide

/-- Claim C4 (amended): the allocated roomId is `US-` followed by the
last four digits of `Date.now()`; any two creates whose timestamps agree
in those four digits — e.g. calls in the same millisecond or exactly a
multiple of 10 seconds apart — are given the same roomId. -/
theorem c4_amended (s t : ServerState)
    (sock1 tid1 tn1 fid1 sock2 tid2 tn2 fid2 : String) (n1 n2 : Nat)
    (h : lastFour n1 = lastFour n2) :
    ((handleCreateSessionRequest s sock1 tid1 tn1 fid1
        n1).1.sessionRequests.get fid1).map (fun r => r.roomId) =
    ((handleCreateSessionRequest t sock2 tid2 tn2 fid2
        n2).1.sessionRequests.get fid2).map (fun r => r.roomId) := by
  simp [handleCreateSessionRequest, AList.get_set_self, h]

/-- Claim C4 witness: timestamps 1000 and 11000 agree on their last four
digits, so the two creates of the example run share a roomId. -/
theorem c4_witness :
    ((handleCreateSessionRequest exPending "sT" "t1" "Tech" "req2"
        11000).1.sessionRequests.get "req2").map (fun r => r.roomId) =
    ((handleCreateSessionRequest exRegistered "sT" "t1" "Tech" "req1"
        1000).1.sessionRequests.get "req1").map (fun r => r.roomId) :=
  c4_amended exPending exRegistered "sT" "t1" "Tech" "req2" "sT" "t1" "Tech"
    "req1" 11000 1000 (by decide)

/-- Claim C6: `end-session` is idempotent — on an unknown (already
removed) request id it returns the state unchanged and emits nothing,
and a second call for the same id after a first one is such a silent
no-op. -/
theorem c6_end_session_idempotent (s : ServerState)
    (sock sock2 requestId : String) :
    (s.sessionRequests.get requestId = none →
      handleEndSession s sock requestId = (s, [])) ∧
    handleEndSession (handleEndSession s sock requestId).1 sock2 requestId =
      ((handleEndSession s sock requestId).1, []) := by
  have noop : ∀ (t : ServerState) (sk : String),
      t.sessionRequests.get requestId = none →
      handleEndSession t sk requestId = (t, []) := by
    intro t sk h
    unfold handleEndSession
    rw [h]
  refine ⟨noop s sock, ?_⟩
  cases hg : s.sessionRequests.get requestId with
  | none =>
    rw [noop s sock hg]
    exact noop s sock2 hg
  | some req =>
    apply noop
    unfold handleEndSession
    rw [hg]
    cases req.assignedRadiologistId.bind (findUserById s) <;>
      simp [AList.get_del_self]

/-- Claim C6 witness: ending the never-created request `nope`, twice. -/
theorem c6_witness :
    handleEndSession exRegistered "sA" "nope" = (exRegistered, []) ∧
    handleEndSession (handleEndSession exPending "sA" "req1").1 "sA" "req1" =
      ((handleEndSession exPending "sA" "req1").1, []) :=
  ⟨(c6_end_session_idempotent exRegistered "sA" "sA" "nope").1 rfl,
   (c6_end_session_idempotent exPending "sA" "sA" "req1").2⟩


/-- Claim C5, counterexample: neither invalid-state operation is
ignored.  `respond-to-assignment` on the assignment `as1`, whose status
is ACCEPTED (no longer PENDING), flips it to REJECTED and reverts the
owning request from ACTIVE to PENDING; and `assign-radiologist` on the
request `req1`, whose status is ACTIVE (not PENDING), overwrites it to
ASSIGNED — both change the tables instead of leaving them unchanged. -/
theorem c5_counterexample :
    (exAccepted.roomAssignments.get "as1").map (fun a => a.status) =
      some "ACCEPTED" ∧
    (exDoubleRespond.roomAssignments.get "as1").map (fun a => a.status) =
      some "REJECTED" ∧
    (exAccepted.sessionRequests.get "req1").map (fun r => r.status) =
      some "ACTIVE" ∧
    (exDoubleRespond.sessionRequests.get "req1").map (fun r => r.status) =
      some "PENDING" ∧
    ((handleAssignRadiologist exAccepted "sA" "req1" "r1" "Rad"
        "as2").1.sessionRequests.get "req1").map (fun r => r.status) =
      some "ASSIGNED" :=
  ⟨rfl, rfl, rfl, rfl, rfl⟩

/-- Claim C5 (amended): only the not-found cases are silent no-ops:
`respond-to-assignment` on an unknown assignment id and
`assign-radiologist` on an unknown request id leave state untouched and
emit nothing.  Neither handler checks the current status: a response to
an assignment in any status re-applies its branch — a reject always sets
the assignment to REJECTED (so a duplicate response after an accept does
change the tables; the last response wins rather than the last valid
transition) — and `assign-radiologist` on a request in any status (in
particular a non-PENDING one) overwrites it to ASSIGNED with fresh
expert fields and inserts a new PENDING assignment. -/
theorem c5_amended (s : ServerState)
    (sock aid rid radId radName fid : String) (accept : Bool)
    (comment : Option String) :
    (s.roomAssignments.get aid = none →
      handleRespondToAssignment s sock aid accept comment = (s, [])) ∧
    (s.sessionRequests.get rid = none →
      handleAssignRadiologist s sock rid radId radName fid = (s, [])) ∧
    (∀ a : RoomAssignment, s.roomAssignments.get aid = some a →
      ((handleRespondToAssignment s sock aid false
          comment).1.roomAssignments.get aid).map (fun x => x.status) =
        some "REJECTED") ∧
    (∀ (req : SessionRequest) (rad : User),
      s.sessionRequests.get rid = some req →
      findUserById s radId = some rad →
      ((handleAssignRadiologist s sock rid radId radName
          fid).1.sessionRequests.get rid) =
        some { req with status := "ASSIGNED"
                        assignedRadiologistId := some radId
                        assignedRadiologistName := some radName } ∧
      ((handleAssignRadiologist s sock rid radId radName
          fid).1.roomAssignments.get fid) =
        some { id := fid
               roomId := req.roomId
               technicianId := req.technicianId
               technicianName := req.technicianName
               radiologistId := radId
               status := "PENDING" }) := by
  refine ⟨?_, ?_, ?_, ?_⟩
  · intro h
    unfold handleRespondToAssignment
    rw [h]
  · intro h
    unfold handleAssignRadiologist
    rw [h]
  · intro a ha
    unfold handleRespondToAssignment
    rw [ha]
    simp only [Bool.false_eq_true, if_false]
    split <;> simp [AList.get_set_self]
  · intro req rad hreq hrad
    unfold handleAssignRadiologist
    rw [hreq]
    simp only [hrad]
    exact ⟨AList.get_set_self _ _ _, AList.get_set_self _ _ _⟩

/-- Claim C5 witness: the four amended facts on the example run — the
not-found no-ops, the reject of the already-ACCEPTED assignment, and the
overwriting assign on the ACTIVE (non-PENDING) request `req1`. -/
theorem c5_witness :
    handleRespondToAssignment exAccepted "sR" "zz" true none =
      (exAccepted, []) ∧
    handleAssignRadiologist exAccepted "sA" "zz" "r1" "Rad" "f1" =
      (exAccepted, []) ∧
    ((handleRespondToAssignment exAccepted "sR" "as1" false
        (some "oops")).1.roomAssignments.get "as1").map (fun x => x.status) =
      some "REJECTED" ∧
    ((handleAssignRadiologist exAccepted "sA" "req1" "r1" "Rad"
        "as2").1.sessionRequests.get "req1") =
      some { exActiveReq1 with status := "ASSIGNED"
                               assignedRadiologistId := some "r1"
                               assignedRadiologistName := some "Rad" } := by
  obtain ⟨h1, h2, h3, h4⟩ :=
    c5_amended exAccepted "sR" "zz" "zz" "r1" "Rad" "f1" true (some "oops")
  refine ⟨h1 rfl, h2 rfl, ?_, ?_⟩
  · exact (c5_amended exAccepted "sR" "as1" "zz" "r1" "Rad" "f1" true
      (some "oops")).2.2.1 exAcceptedAs1 rfl
  · exact ((c5_amended exAccepted "sA" "zz" "req1" "r1" "Rad" "as2" true
      none).2.2.2 exActiveReq1 exAvailRad rfl rfl).1

/-- Claim C1, counterexample: in the example run the assignment `as1`
is PENDING and the assigned radiologist is available; after the accept
the assignment is ACCEPTED but the radiologist's `isAvailable` flag is
still `true` — the accept branch never sets it to `false`. -/
theorem c1_counterexample :
    (exAssigned.roomAssignments.get "as1").map (fun a => a.status) =
      some "PENDING" ∧
    (exAssigned.connectedUsers.get "sR").map
        (fun u => (u.role, u.isAvailable)) = some ("RADIOLOGIST", true) ∧
    (exAccepted.roomAssignments.get "as1").map (fun a => a.status) =
      some "ACCEPTED" ∧
    (exAccepted.connectedUsers.get "sR").map (fun u => u.isAvailable) =
      some true :=
  ⟨rfl, rfl, rfl, rfl⟩

/-- Claim C1 (amended): accepting a PENDING assignment sets it to
ACCEPTED, sets the owning request (the one sharing its roomId) to
ACTIVE, notifies the requester's socket with a `ROOM_ACCEPTED` signal
carrying the confirmed roomId, and instructs the responding socket (the
expert) to join that same roomId — but it leaves the whole
`connectedUsers` table, and hence the expert's `available` flag,
unchanged. -/
theorem c1_amended (s : ServerState) (sock aid : String)
    (comment : Option String) (a : RoomAssignment) (req : SessionRequest)
    (tech : User) (ctech : Conn)
    (ha : s.roomAssignments.get aid = some a)
    (_hpend : a.status = "PENDING")
    (hreq : findRequestByRoom s a.roomId = some req)
    (htech : findUserById s a.technicianId = some tech)
    (hconn : s.connections.get tech.socketId = some ctech) :
    ((handleRespondToAssignment s sock aid true
        comment).1.roomAssignments.get aid) =
      some { a with status := "ACCEPTED" } ∧
    ((handleRespondToAssignment s sock aid true
        comment).1.sessionRequests.get req.id) =
      some { req with status := "ACTIVE" } ∧
    (handleRespondToAssignment s sock aid true comment).1.connectedUsers =
      s.connectedUsers ∧
    Emit.mk tech.socketId (.signal (.roomAccepted aid
        ((s.connectedUsers.get sock).map (fun u => u.id)) a.roomId)) ∈
      (handleRespondToAssignment s sock aid true comment).2 ∧
    Emit.mk sock (.joinRoom a.roomId) ∈
      (handleRespondToAssignment s sock aid true comment).2 := by
  unfold handleRespondToAssignment
  rw [ha]
  simp only [if_true]
  simp only [findRequestByRoom] at hreq ⊢
  rw [hreq]
  simp only [findUserById] at htech ⊢
  rw [htech]
  refine ⟨AList.get_set_self _ _ _, AList.get_set_self _ _ _, ?_, ?_, ?_⟩
  · trivial
  · apply List.mem_append_left
    apply List.mem_append_left
    exact mem_ioTo hconn _
  · apply List.mem_append_left
    apply List.mem_append_right
    exact List.mem_singleton_self _

/-- Claim C1 witness: the amended claim on the example run. -/
theorem c1_witness :
    ((handleRespondToAssignment exAssigned "sR" "as1" true
        none).1.roomAssignments.get "as1") =
      some { id := "as1", roomId := "US-1000", technicianId := "t1",
             technicianName := "Tech", radiologistId := "r1",
             status := "ACCEPTED" } ∧
    ((handleRespondToAssignment exAssigned "sR" "as1" true
        none).1.sessionRequests.get "req1") =
      some { id := "req1", technicianId := "t1", technicianName := "Tech",
             status := "ACTIVE", roomId := "US-1000", createdAt := 1000,
             assignedRadiologistId := some "r1",
             assignedRadiologistName := some "Rad" } ∧
    (handleRespondToAssignment exAssigned "sR" "as1" true
        none).1.connectedUsers = exAssigned.connectedUsers ∧
    Emit.mk "sT" (.signal (.roomAccepted "as1"
        ((exAssigned.connectedUsers.get "sR").map (fun u => u.id))
        "US-1000")) ∈
      (handleRespondToAssignment exAssigned "sR" "as1" true none).2 ∧
    Emit.mk "sR" (.joinRoom "US-1000") ∈
      (handleRespondToAssignment exAssigned "sR" "as1" true none).2 :=
  c1_amended exAssigned "sR" "as1" none
    { id := "as1", roomId := "US-1000", technicianId := "t1",
      technicianName := "Tech", radiologistId := "r1", status := "PENDING" }
    { id := "req1", technicianId := "t1", technicianName := "Tech",
      status := "ASSIGNED", roomId := "US-1000", createdAt := 1000,
      assignedRadiologistId := some "r1",
      assignedRadiologistName := some "Rad" }
    { id := "t1", name := "Tech", role := "TECH", isAvailable := false,
      socketId := "sT" }
    {} rfl rfl rfl rfl rfl

/-- Claim C8, counterexample: the radiologist marks themselves
unavailable, is assigned anyway and rejects with comment `busy`; all
reject bookkeeping happens, but the expert's `available` flag is still
`false` afterwards — the reject branch never writes it, so it does not
revert to `true`. -/
theorem c8_counterexample :
    (exUnavailAssigned.roomAssignments.get "as1").map (fun a => a.status) =
      some "PENDING" ∧
    (exRejected.roomAssignments.get "as1").map
        (fun a => (a.status, a.rejectionComment)) =
      some ("REJECTED", some "busy") ∧
    (exRejected.sessionRequests.get "req1").map
        (fun r => (r.status, r.assignedRadiologistId,
          r.assignedRadiologistName, r.rejectionComment)) =
      some ("PENDING", none, none, some "busy") ∧
    (exRejected.connectedUsers.get "sR").map (fun u => u.isAvailable) =
      some false :=
  ⟨rfl, rfl, rfl, rfl⟩

/-- Claim C8 (amended): rejecting a PENDING assignment sets it to
REJECTED with the comment recorded, reverts the owning request to
PENDING with both expert fields cleared and the comment recorded, and
notifies every medical admin with a `ROOM_REJECTED` signal carrying the
responding expert's name and the comment — but it leaves the whole
`connectedUsers` table unchanged, so the expert's `available` flag keeps
whatever value it had (it is `true` afterwards only when it was already
`true`). -/
theorem c8_amended (s : ServerState) (sock aid : String)
    (comment : Option String) (a : RoomAssignment) (req : SessionRequest)
    (u : User)
    (ha : s.roomAssignments.get aid = some a)
    (_hpend : a.status = "PENDING")
    (hreq : findRequestByRoom s a.roomId = some req)
    (hu : s.connectedUsers.get sock = some u) :
    ((handleRespondToAssignment s sock aid false
        comment).1.roomAssignments.get aid) =
      some { a with status := "REJECTED", rejectionComment := comment } ∧
    ((handleRespondToAssignment s sock aid false
        comment).1.sessionRequests.get req.id) =
      some { req with status := "PENDING", assignedRadiologistId := none,
                      assignedRadiologistName := none,
                      rejectionComment := comment } ∧
    (handleRespondToAssignment s sock aid false comment).1.connectedUsers =
      s.connectedUsers ∧
    (∀ admin ∈ getUsersByRole s "MEDICAL_ADMIN",
      Emit.mk admin.socketId (.signal (.roomRejected aid (some u.id)
          (some u.name) comment)) ∈
        (handleRespondToAssignment s sock aid false comment).2) := by
  unfold handleRespondToAssignment
  rw [ha]
  simp only [Bool.false_eq_true, if_false]
  simp only [findRequestByRoom] at hreq ⊢
  rw [hreq]
  rw [hu]
  refine ⟨AList.get_set_self _ _ _, AList.get_set_self _ _ _, ?_, ?_⟩
  · trivial
  intro admin hadmin
  apply List.mem_append_left
  exact List.mem_map_of_mem _ hadmin


/-- Claim C8 witness: on the example run the admin socket `sA` receives
the `ROOM_REJECTED` notification carrying the expert's name and the
comment. -/
theorem c8_witness :
    Emit.mk "sA" (.signal (.roomRejected "as1" (some "r1") (some "Rad")
        (some "busy"))) ∈
      (handleRespondToAssignment exUnavailAssigned "sR" "as1" false
        (some "busy")).2 :=
  (c8_amended exUnavailAssigned "sR" "as1" (some "busy") exPendingAs1
    exAssignedReq1 exUnavailRad rfl rfl rfl rfl).2.2.2 exAdminUser
    (by decide)

/-- Claim C2, counterexample: `sR` is the accepted expert of the ACTIVE
request `req1`; after `sR` disconnects the request is still present and
still ACTIVE (not removed), and no `SESSION_ENDED` signal is emitted at
all — the disconnect handler force-ends sessions only for TECH users. -/
theorem c2_counterexample :
    (exAccepted.connectedUsers.get "sR").map (fun v => (v.id, v.role)) =
      some ("r1", "RADIOLOGIST") ∧
    (exAccepted.sessionRequests.get "req1").map
        (fun r => (r.status, r.assignedRadiologistId)) =
      some ("ACTIVE", some "r1") ∧
    ((handleDisconnect exAccepted "sR").1.sessionRequests.get "req1").map
        (fun r => r.status) = some "ACTIVE" ∧
    ((handleDisconnect exAccepted "sR").2.countP (fun e =>
        match e.event with
        | .signal (.sessionEnded _ _) => true
        | _ => false)) = 0 := by
  refine ⟨rfl, rfl, rfl, ?_⟩
  rfl

/-- Claim C2 (amended): when the disconnecting identity is not a TECH —
in particular when it is the accepted expert (RADIOLOGIST) of an ACTIVE
or ASSIGNED request — the disconnect handler does not force-end
anything: the sessionRequests and roomAssignments tables are left
exactly as they were (only the registry entry, connection and room
membership are cleaned up), so the request survives the expert's
disconnect. -/
theorem c2_amended (s : ServerState) (sock : String) (u : User)
    (hu : s.connectedUsers.get sock = some u) (hrole : u.role ≠ "TECH") :
    (handleDisconnect s sock).1.sessionRequests = s.sessionRequests ∧
    (handleDisconnect s sock).1.roomAssignments = s.roomAssignments := by
  have hb : (u.role == "TECH") = false := by
    simp [hrole]
  unfold handleDisconnect
  dsimp only
  rw [hu, disconnectEndStep_nonTech u _ hb]
  constructor
  · rw [(disconnectRoomStep_fields _ _ _ _).2.1]
    rfl
  · rw [(disconnectRoomStep_fields _ _ _ _).2.2.1]
    rfl

/-- Claim C2 witness: the expert's disconnect on the example run leaves
both workflow tables untouched. -/
theorem c2_witness :
    (handleDisconnect exAccepted "sR").1.sessionRequests =
      exAccepted.sessionRequests ∧
    (handleDisconnect exAccepted "sR").1.roomAssignments =
      exAccepted.roomAssignments :=
  c2_amended exAccepted "sR"
    { id := "r1"
      name := "Rad"
      role := "RADIOLOGIST"
      isAvailable := true
      socketId := "sR" } rfl (by decide)

/-- Claim C7: a `signal` event from a sender that has joined a room
(`currentRoom = some room`) changes no server state and is forwarded
verbatim exactly to the other connections that have joined that room:
an emission to `tgt` exists iff `tgt` is not the sender and `tgt` is a
connected socket whose joined rooms include the sender's current room.
-/
theorem c7_relay_membership (s : ServerState) (sock body room : String)
    (c : Conn) (hc : s.connections.get sock = some c)
    (hr : c.currentRoom = some room) :
    (handleSignal s sock body).1 = s ∧
    (∀ tgt : String,
      Emit.mk tgt (.signal (.clientEvent body)) ∈ (handleSignal s sock body).2 ↔
        (tgt ≠ sock ∧ ∃ c2 : Conn, (tgt, c2) ∈ s.connections ∧
          c2.joinedRooms.contains room = true)) ∧
    (∀ e ∈ (handleSignal s sock body).2,
      e.event = OutEvent.signal (.clientEvent body)) := by
  unfold handleSignal
  rw [hc]
  simp only [hr]
  refine ⟨trivial, ?_, ?_⟩
  · intro tgt
    constructor
    · intro hmem
      simp only [socketTo, List.mem_map, List.mem_filter] at hmem
      obtain ⟨p, ⟨hp, hcond⟩, heq⟩ := hmem
      have ht : p.1 = tgt := by
        cases heq
        rfl
      rw [Bool.and_eq_true, bne_iff_ne] at hcond
      exact ⟨ht ▸ hcond.1, p.2, by rw [← ht]; exact hp, hcond.2⟩
    · rintro ⟨hne, c2, hmem, hjoin⟩
      simp only [socketTo, List.mem_map]
      refine ⟨(tgt, c2), ?_, rfl⟩
      apply List.mem_filter_of_mem hmem
      rw [Bool.and_eq_true, bne_iff_ne]
      exact ⟨hne, hjoin⟩
  · intro e he
    simp only [socketTo, List.mem_map] at he
    obtain ⟨p, _, heq⟩ := he
    rw [← heq]

/-- Claim C7 witness: in the joined example, the relayed chat reaches
the radiologist's socket and provably not the sender's. -/
theorem c7_witness :
    Emit.mk "sR" (.signal (.clientEvent "hello")) ∈
      (handleSignal exJoined "sT" "hello").2 ∧
    Emit.mk "sT" (.signal (.clientEvent "hello")) ∉
      (handleSignal exJoined "sT" "hello").2 := by
  have H := c7_relay_membership exJoined "sT" "hello" "room-US-1000"
    { currentRoom := some "room-US-1000"
      joinedRooms := ["room-US-1000"] } rfl rfl
  constructor
  · exact (H.2.1 "sR").mpr ⟨by decide,
      { currentRoom := some "room-US-1000"
        joinedRooms := ["room-US-1000"] }, by decide, by decide⟩
  · intro hmem
    exact absurd rfl ((H.2.1 "sT").mp hmem).1

-- ============================================
-- THE NO-JOIN INVARIANT (claim C10)
-- ============================================


theorem join_connections_ne (s : ServerState)
    (sock roomId role : String) (now : Nat) (k : String) (hk : k ≠ sock) :
    (handleJoin s sock roomId role now).1.connections.get k =
      s.connections.get k :=
  AList.get_set_ne _ _ _ _ hk

theorem connect_connections_ne (s : ServerState) (sock k : String)
    (hk : k ≠ sock) :
    (handleConnect s sock).connections.get k = s.connections.get k :=
  AList.get_set_ne _ _ _ _ hk

theorem stepState_noRoom (sock : String) (s : ServerState) (e : Event)
    (h : NoRoom sock s) (hj : isJoinBy sock e = false) :
    NoRoom sock (stepState s e) := by
  cases e with
  | connect sock2 =>
    intro c hc
    by_cases hsk : sock2 = sock
    · subst hsk
      have hc2 : (s.connections.set sock2 {}).get sock2 = some c := hc
      rw [AList.get_set_self] at hc2
      cases hc2
      rfl
    · have hc2 : (handleConnect s sock2).connections.get sock = some c := hc
      rw [connect_connections_ne s sock2 sock (Ne.symm hsk)] at hc2
      exact h c hc2
  | register sock2 userId userName role => exact fun c hc => h c hc
  | setAvailability sock2 av =>
    intro c hc
    have hc2 : (handleSetAvailability s sock2 av).1.connections.get sock =
        some c := hc
    rw [setAvailability_connections] at hc2
    exact h c hc2
  | createSessionRequest sock2 tid tname fid now => exact fun c hc => h c hc
  | assignRadiologist sock2 rid radId radName fid =>
    intro c hc
    have hc2 : (handleAssignRadiologist s sock2 rid radId radName
        fid).1.connections.get sock = some c := hc
    rw [assignRadiologist_connections] at hc2
    exact h c hc2
  | respondToAssignment sock2 aid accept comment =>
    intro c hc
    have hc2 : (handleRespondToAssignment s sock2 aid accept
        comment).1.connections.get sock = some c := hc
    rw [respondToAssignment_connections] at hc2
    exact h c hc2
  | endSession sock2 rid =>
    intro c hc
    have hc2 : (handleEndSession s sock2 rid).1.connections.get sock =
        some c := hc
    rw [endSession_connections] at hc2
    exact h c hc2
  | joinRoom sock2 roomId role now =>
    intro c hc
    have hne : sock2 ≠ sock := by
      simpa [isJoinBy] using hj
    have hc2 : (handleJoin s sock2 roomId role now).1.connections.get sock =
        some c := hc
    rw [join_connections_ne s sock2 roomId role now sock (Ne.symm hne)] at hc2
    exact h c hc2
  | signalMsg sock2 body =>
    intro c hc
    have hc2 : ((handleSignal s sock2 body).1).connections.get sock =
        some c := hc
    rw [signal_state] at hc2
    exact h c hc2
  | disconnect sock2 =>
    intro c hc
    have hc2 : (handleDisconnect s sock2).1.connections.get sock =
        some c := hc
    rw [disconnect_connections] at hc2
    by_cases hsk : sock2 = sock
    · subst hsk
      rw [AList.get_del_self] at hc2
      cases hc2
    · rw [AList.get_del_ne _ _ _ (Ne.symm hsk)] at hc2
      exact h c hc2

theorem signal_noRoom (s : ServerState) (sock body : String)
    (h : NoRoom sock s) : handleSignal s sock body = (s, []) := by
  unfold handleSignal
  cases hc : s.connections.get sock with
  | none => rfl
  | some c => simp [h c hc]

/-- Claim C10: a `signal` relay message from a connection that has never
joined any room is dropped silently — starting from any state in which
the socket has no current room, after any sequence of events containing
no `join` by that socket, handling its `signal` leaves the entire server
state unchanged and delivers the message to nobody. -/
theorem c10_signal_without_join (s0 : ServerState) (evs : List Event)
    (sock body : String) (h0 : NoRoom sock s0)
    (hevs : ∀ e ∈ evs, isJoinBy sock e = false) :
    handleSignal (runEvents s0 evs) sock body = (runEvents s0 evs, []) := by
  have hrun : NoRoom sock (runEvents s0 evs) := by
    unfold runEvents
    induction evs generalizing s0 with
    | nil => exact h0
    | cons e t ih =>
      rw [List.foldl_cons]
      exact ih (stepState s0 e)
        (stepState_noRoom sock s0 e h0 (hevs e (List.mem_cons_self _ _)))
        (fun e2 he2 => hevs e2 (List.mem_cons_of_mem _ he2))
  exact signal_noRoom _ _ _ hrun

/-- Claim C10 witness: a freshly connected socket `sX` registers and
relays while others join and chat; its `signal` is still a silent
no-op. -/
theorem c10_witness :
    handleSignal (runEvents (handleConnect exAccepted "sX")
      [Event.register "sX" "t9" "Ghost" "TECH",
       Event.joinRoom "sT" "US-1000" "TECH" 2000,
       Event.joinRoom "sR" "US-1000" "RADIOLOGIST" 3000,
       Event.signalMsg "sT" "ping"]) "sX" "hello" =
    (runEvents (handleConnect exAccepted "sX")
      [Event.register "sX" "t9" "Ghost" "TECH",
       Event.joinRoom "sT" "US-1000" "TECH" 2000,
       Event.joinRoom "sR" "US-1000" "RADIOLOGIST" 3000,
       Event.signalMsg "sT" "ping"], []) :=
  c10_signal_without_join (handleConnect exAccepted "sX")
    [Event.register "sX" "t9" "Ghost" "TECH",
     Event.joinRoom "sT" "US-1000" "TECH" 2000,
     Event.joinRoom "sR" "US-1000" "RADIOLOGIST" 3000,
     Event.signalMsg "sT" "ping"] "sX" "hello"
    (by
      intro c hc
      have : some ({} : Conn) = some c := by
        exact hc
      cases this
      rfl)
    (by decide)

-- ============================================
-- DISCONNECT OF A TECHNICIAN (claim C9)
-- ============================================


theorem disconnectEndOne_skip (tid : String) (st : ServerState × List Emit)
    (e : String × SessionRequest) (h : disconnectMatch tid e = false) :
    disconnectEndOne tid st e = st := by
  unfold disconnectEndOne
  dsimp only
  rw [h]
  simp only [Bool.false_eq_true, if_false]

theorem foldl_disconnectEndOne_skip (tid : String)
    (l : AList SessionRequest) (st : ServerState × List Emit)
    (h : ∀ e ∈ l, disconnectMatch tid e = false) :
    l.foldl (disconnectEndOne tid) st = st := by
  induction l generalizing st with
  | nil => rfl
  | cons e t ih =>
    rw [List.foldl_cons,
        disconnectEndOne_skip tid st e (h e (List.mem_cons_self _ _)),
        ih st (fun e2 he2 => h e2 (List.mem_cons_of_mem _ he2))]

theorem disconnectEndStep_single (u : User) (s1 : ServerState)
    (rid : String) (req : SessionRequest) (l1 l2 : AList SessionRequest)
    (hb : (u.role == "TECH") = true)
    (hsplit : s1.sessionRequests = l1 ++ (rid, req) :: l2)
    (h1 : ∀ e ∈ l1, disconnectMatch u.id e = false)
    (h2 : ∀ e ∈ l2, disconnectMatch u.id e = false) :
    disconnectEndStep (some u) s1 =
      disconnectEndOne u.id (s1, []) (rid, req) := by
  unfold disconnectEndStep
  simp only [hb, if_true]
  rw [hsplit, List.foldl_append,
      foldl_disconnectEndOne_skip u.id l1 (s1, []) h1, List.foldl_cons,
      foldl_disconnectEndOne_skip u.id l2 _ h2]

theorem disconnectEndOne_hit (s : ServerState) (sock : String) (u : User)
    (rid : String) (req : SessionRequest) (radId : String) (rad : User)
    (hm : disconnectMatch u.id (rid, req) = true)
    (hradid : req.assignedRadiologistId = some radId)
    (hrad : findUserById (disconnectBase s sock) radId = some rad) :
    disconnectEndOne u.id (disconnectBase s sock, []) (rid, req) =
      ({ radFreedState s sock rad with
          sessionRequests := (radFreedState s sock rad).sessionRequests.del
            rid
          roomAssignments := (radFreedState s sock rad).roomAssignments.filter
            (fun p => p.2.roomId != req.roomId) },
       ioTo (disconnectBase s sock) rad.socketId
           (.signal (.sessionEnded rid "Technician left the session")) ++
         (getUsersByRole (radFreedState s sock rad) "MEDICAL_ADMIN").map
           (fun admin => ⟨admin.socketId, .signal (.sessionEnded rid
             "Technician disconnected")⟩)) := by
  unfold disconnectEndOne
  dsimp only
  rw [hm]
  simp only [if_true]
  rw [hradid]
  simp only [hrad]
  rfl

/-- Claim C9, counterexample: technician `sT` has live request `req1`
with status PENDING; after `sT` disconnects, the request is still in the
table — the disconnect handler only force-ends ACTIVE or ASSIGNED
requests, not PENDING ones. -/
theorem c9_counterexample :
    (exPending.connectedUsers.get "sT").map (fun v => (v.id, v.role)) =
      some ("t1", "TECH") ∧
    (exPending.sessionRequests.get "req1").map
        (fun r => (r.technicianId, r.status)) = some ("t1", "PENDING") ∧
    ((handleDisconnect exPending "sT").1.sessionRequests.get "req1").map
        (fun r => r.status) = some "PENDING" :=
  ⟨rfl, rfl, rfl⟩

/-- Claim C9 (amended): when a TECH user disconnects, only requests in
status ACTIVE or ASSIGNED are force-ended (PENDING requests survive).
When the departing technician's matching request is the unique matching
entry of the table and its assigned radiologist is found among the
remaining users, that request is removed, the radiologist's `available`
flag is set back to true, the radiologist's socket is sent a
`SESSION_ENDED` notice, and every medical admin is notified as well. -/
theorem c9_amended (s : ServerState) (sock : String) (u : User)
    (rid : String) (req : SessionRequest) (l1 l2 : AList SessionRequest)
    (radId : String) (rad : User) (cr : Conn)
    (hu : s.connectedUsers.get sock = some u)
    (hrole : u.role = "TECH")
    (hsplit : s.sessionRequests = l1 ++ (rid, req) :: l2)
    (h1 : ∀ e ∈ l1, disconnectMatch u.id e = false)
    (h2 : ∀ e ∈ l2, disconnectMatch u.id e = false)
    (hm : disconnectMatch u.id (rid, req) = true)
    (hradid : req.assignedRadiologistId = some radId)
    (hrad : findUserById (disconnectBase s sock) radId = some rad)
    (hcr : (disconnectBase s sock).connections.get rad.socketId = some cr) :
    (handleDisconnect s sock).1.sessionRequests.get rid = none ∧
    (handleDisconnect s sock).1.connectedUsers.get rad.socketId =
      some { rad with isAvailable := true } ∧
    Emit.mk rad.socketId (.signal (.sessionEnded rid
        "Technician left the session")) ∈ (handleDisconnect s sock).2 ∧
    (∀ admin ∈ getUsersByRole (radFreedState s sock rad) "MEDICAL_ADMIN",
      Emit.mk admin.socketId (.signal (.sessionEnded rid
        "Technician disconnected")) ∈ (handleDisconnect s sock).2) := by
  have hb : (u.role == "TECH") = true := by
    simp [hrole]
  unfold handleDisconnect
  dsimp only
  rw [hu]
  rw [disconnectEndStep_single u (disconnectBase s sock) rid req l1 l2 hb
      hsplit h1 h2]
  rw [disconnectEndOne_hit s sock u rid req radId rad hm hradid hrad]
  dsimp only
  refine ⟨?_, ?_, ?_, ?_⟩
  · rw [(disconnectRoomStep_fields _ _ _ _).2.1]
    exact AList.get_del_self _ _
  · rw [(disconnectRoomStep_fields _ _ _ _).1]
    exact AList.get_set_self _ _ _
  · apply List.mem_append_left
    apply List.mem_append_left
    apply List.mem_append_left
    apply List.mem_append_left
    exact mem_ioTo hcr _
  · intro admin hadmin
    apply List.mem_append_left
    apply List.mem_append_left
    apply List.mem_append_left
    apply List.mem_append_right
    exact List.mem_map_of_mem _ hadmin


/-- Claim C9 witness: the technician of the ACTIVE example session
disconnects; the request is removed, the radiologist is available and
notified, and the admin is notified. -/
theorem c9_witness :
    (handleDisconnect exAccepted "sT").1.sessionRequests.get "req1" =
      none ∧
    (handleDisconnect exAccepted "sT").1.connectedUsers.get "sR" =
      some { exAvailRad with isAvailable := true } ∧
    Emit.mk "sR" (.signal (.sessionEnded "req1"
        "Technician left the session")) ∈
      (handleDisconnect exAccepted "sT").2 ∧
    Emit.mk "sA" (.signal (.sessionEnded "req1"
        "Technician disconnected")) ∈
      (handleDisconnect exAccepted "sT").2 := by
  have H := c9_amended exAccepted "sT" exTechUser "req1" exActiveReq1 [] []
    "r1" exAvailRad {} rfl rfl rfl (by simp) (by simp) (by decide) rfl
    (by decide) rfl
  exact ⟨H.1, H.2.1, H.2.2.1, H.2.2.2 exAdminUser (by decide)⟩

end Rology
